import Mathlib

/-!
Shallow embedding of the email-contact Flask application (app.py) and the
properties claimed about it.  Stateful database access is modelled by
explicit state passing over a list of rows; the external collaborators
(boto3 Secrets Manager, json.loads, the SQL engine) are modelled at their
interface: the secret fetch outcome is an oracle input, and the SQL LIKE
operator is implemented directly.
-/

namespace EmailDb

/-- Python truthiness of an optional environment string: None and the empty
string are falsy, every other string is truthy. -/
def truthy : Option String → Bool
  | none => false
  | some s => if s = "" then false else true

/-- Python `a or b` on optional strings: returns `a` when truthy, else `b`. -/
def pyOr (a b : Option String) : Option String :=
  if truthy a then a else b

/-- Values produced by json.loads: the subset of Python values a JSON
payload can decode to. -/
inductive PyJson where
  | jnull
  | jbool (b : Bool)
  | jnum (n : Int)
  | jstr (s : String)
  | jarr (xs : List PyJson)
  | jobj (fields : List (String × PyJson))

/-- Python truthiness of a decoded JSON value. -/
def jTruthy : PyJson → Bool
  | PyJson.jnull => false
  | PyJson.jbool b => b
  | PyJson.jnum n => if n = 0 then false else true
  | PyJson.jstr s => if s = "" then false else true
  | PyJson.jarr xs => !xs.isEmpty
  | PyJson.jobj fs => !fs.isEmpty

/-- Python truthiness of an optional Python value (None is falsy). -/
def pyTruthy : Option PyJson → Bool
  | none => false
  | some v => jTruthy v

/-- Python `a or b` on optional Python values. -/
def pyOrJ (a b : Option PyJson) : Option PyJson :=
  if pyTruthy a then a else b

/-- Python `dict.get` over the entries of a decoded JSON object. -/
def dictGet (fields : List (String × PyJson)) (k : String) : Option PyJson :=
  (fields.find? (fun f => f.1 = k)).map (fun f => f.2)

/-- A single-quote character, used by the Python repr of strings. -/
def sq : String := String.singleton (Char.ofNat 39)

/-- Python repr of a decoded JSON value. -/
def pyRepr : PyJson → String
  | PyJson.jnull => "None"
  | PyJson.jbool true => "True"
  | PyJson.jbool false => "False"
  | PyJson.jnum n => toString n
  | PyJson.jstr s => sq ++ s ++ sq
  | PyJson.jarr xs =>
      "[" ++ String.intercalate ", " (xs.attach.map (fun t => pyRepr t.1)) ++ "]"
  | PyJson.jobj fs =>
      "\x7b" ++
        String.intercalate ", "
          (fs.attach.map (fun t => sq ++ t.1.1 ++ sq ++ ": " ++ pyRepr t.1.2)) ++
      "\x7d"
decreasing_by
  · have h := List.sizeOf_lt_of_mem t.2
    simp only [PyJson.jarr.sizeOf_spec]
    omega
  · obtain ⟨⟨k, v⟩, hm⟩ := t
    have h := List.sizeOf_lt_of_mem hm
    simp only [PyJson.jobj.sizeOf_spec, Prod.mk.sizeOf_spec] at h ⊢
    omega

/-- Python str conversion as used when a value is spliced into an f-string:
identical to repr except on strings, which are rendered without quotes. -/
def pyStr : PyJson → String
  | PyJson.jstr s => s
  | v => pyRepr v

/-- Outcome of json.loads on the secret payload: either a JSONDecodeError
or a decoded value.  json.loads is external library code, so its outcome
on a given payload string is supplied as an input. -/
inductive JsonParse where
  | decodeError
  | value (v : PyJson)

/-- Outcome of the boto3 get_secret_value call: a botocore ClientError, a
response without a SecretString, or a response with payload `s` which
json.loads decodes as described by `parsed`. -/
inductive SecretFetch where
  | clientError
  | noSecretString
  | payload (s : String) (parsed : JsonParse)

/-- fetch_rds_credentials from app.py.  Returns the (username, password)
pair as optional Python values, or an uncaught exception: only ClientError
and JSONDecodeError are handled, so a payload that decodes to a non-object
JSON value hits `data.get` on a non-dict and raises AttributeError. -/
def fetch_rds_credentials (_secret_arn _region : String) :
    SecretFetch → Except String (Option PyJson × Option PyJson)
  | SecretFetch.clientError => Except.ok (none, none)
  | SecretFetch.noSecretString => Except.ok (none, none)
  | SecretFetch.payload s parsed =>
    if s = "" then Except.ok (none, none)
    else
      match parsed with
      | JsonParse.decodeError =>
          Except.ok (some (PyJson.jstr "admin"), some (PyJson.jstr s))
      | JsonParse.value (PyJson.jobj fields) =>
          Except.ok
            (pyOrJ (dictGet fields "username")
              (pyOrJ (dictGet fields "user") (some (PyJson.jstr "admin"))),
             pyOrJ (dictGet fields "password") (dictGet fields "pass"))
      | JsonParse.value _ => Except.error "AttributeError"

/-- Raw environment variables read at module load (None means unset). -/
structure Env where
  db_host : Option String
  rds_hostname : Option String
  db_endpoint : Option String
  db_port : Option String
  rds_port : Option String
  db_name : Option String
  rds_db_name : Option String
  db_user : Option String
  rds_username : Option String
  db_password : Option String
  rds_password : Option String
  secret_arn : Option String
  aws_region : Option String
deriving DecidableEq

/-- The environment with no configuration set. -/
def emptyEnv : Env :=
  ⟨none, none, none, none, none, none, none, none, none, none, none, none, none⟩

/-- Module constant DB_HOST: getenv DB_HOST or RDS_HOSTNAME or DB_ENDPOINT. -/
def DB_HOST (e : Env) : Option String :=
  pyOr (pyOr e.db_host e.rds_hostname) e.db_endpoint

/-- Module constant DB_PORT: int(getenv DB_PORT or RDS_PORT or 3306); none
models the int() call raising on a non-numeric string. -/
def DB_PORT? (e : Env) : Option Nat :=
  match pyOr e.db_port e.rds_port with
  | none => some 3306
  | some s => if s = "" then some 3306 else s.toNat?

/-- Module constant DB_NAME: getenv DB_NAME or RDS_DB_NAME. -/
def DB_NAME (e : Env) : Option String :=
  pyOr e.db_name e.rds_db_name

/-- Module constant DB_USER: getenv DB_USER or RDS_USERNAME. -/
def DB_USER (e : Env) : Option String :=
  pyOr e.db_user e.rds_username

/-- Module constant DB_PASSWORD: getenv DB_PASSWORD or RDS_PASSWORD. -/
def DB_PASSWORD (e : Env) : Option String :=
  pyOr e.db_password e.rds_password

/-- Module constant SECRET_ARN: getenv SECRET_ARN. -/
def SECRET_ARN (e : Env) : Option String :=
  e.secret_arn

/-- Module constant AWS_REGION: getenv AWS_REGION with default eu-central-1. -/
def AWS_REGION (e : Env) : String :=
  e.aws_region.getD "eu-central-1"

/-- The MySQL connection URI f-string from build_sqlalchemy_uri. -/
def mysqlUri (user password host : String) (port : Nat) (name : String) : String :=
  "mysql+pymysql://" ++ user ++ ":" ++ password ++ "@" ++ host ++ ":" ++
    toString port ++ "/" ++ name

/-- build_sqlalchemy_uri from app.py.  The secret-fetch oracle describes the
outcome of the Secrets Manager interaction; an Except.error result models an
exception escaping the function (which aborts app startup). -/
def build_sqlalchemy_uri (e : Env) (secret : SecretFetch) : Except String String :=
  match DB_PORT? e with
  | none => Except.error "ValueError"
  | some port =>
    if truthy (DB_HOST e) && truthy (DB_NAME e) &&
        truthy (DB_USER e) && truthy (DB_PASSWORD e) then
      Except.ok (mysqlUri ((DB_USER e).getD "") ((DB_PASSWORD e).getD "")
        ((DB_HOST e).getD "") port ((DB_NAME e).getD ""))
    else if truthy (SECRET_ARN e) && truthy (DB_HOST e) && truthy (DB_NAME e) then
      match fetch_rds_credentials ((SECRET_ARN e).getD "") (AWS_REGION e) secret with
      | Except.error msg => Except.error msg
      | Except.ok (u, p) =>
        if pyTruthy u && pyTruthy p then
          Except.ok (mysqlUri (pyStr (u.getD PyJson.jnull)) (pyStr (p.getD PyJson.jnull))
            ((DB_HOST e).getD "") port ((DB_NAME e).getD ""))
        else Except.ok "sqlite:///./email.db"
    else Except.ok "sqlite:///./email.db"

/-- A row of the users table. -/
abbrev Row := String × String

/-- The users table as an ordered list of rows. -/
abbrev Store := List Row

/-- SQL LIKE pattern matching over character lists: the percent wildcard
matches any sequence (tried against every suffix), the underscore wildcard
matches any single character, and every other pattern character matches
itself.  The whole string must be consumed.  This implements the semantics
of the LIKE operator the parameterized query delegates to the SQL engine
(collation folding abstracted away: matching is character-exact). -/
def likeMatch : List Char → List Char → Bool
  | [], s => s.isEmpty
  | p :: ps, s =>
    if p = '%' then s.tails.any (fun t => likeMatch ps t)
    else
      match s with
      | [] => false
      | c :: s2 => (p = '_' || p = c) && likeMatch ps s2

/-- The LIKE pattern the search query builds from the keyword, percent on
both sides. -/
def likePattern (keyword : String) : List Char :=
  '%' :: (keyword.toList ++ ['%'])

/-- Whether a stored username matches the search pattern for a keyword. -/
def usernameMatches (keyword username : String) : Bool :=
  likeMatch (likePattern keyword) username.toList

/-- find_emails from app.py: parameterized LIKE query on username, returning
the matching rows, or the literal not-found string when no row matches. -/
def find_emails (store : Store) (keyword : String) : List Row ⊕ String :=
  let rows := store.filter (fun r => usernameMatches keyword r.1)
  if rows = [] then Sum.inr "User not found" else Sum.inl rows

/-- insert_email from app.py: validation cascade, then existence check,
then insert and commit.  Returns the updated table and the status string.
The Python membership tests of the single characters at-sign and dot in the
email are expressed as membership in the character list of the email. -/
def insert_email (store : Store) (name email : String) : Store × String :=
  if name = "" ∨ email = "" then
    (store, "Username or email cannot be empty!")
  else if email.toList.contains '@' = false ∨ email.toList.contains '.' = false then
    (store, "Please provide a valid email address.")
  else if store.any (fun r => r.1 = name) = true then
    (store, "User " ++ name ++ " already exists.")
  else
    (store ++ [(name, email)],
     "User " ++ name ++ " with email " ++ email ++ " has been added successfully.")

/-- Database state seen by the startup bootstrap: whether the users table
exists, and its rows. -/
structure DbState where
  tableExists : Bool
  rows : Store
deriving DecidableEq

/-- The three seed rows inserted by the bootstrap batch. -/
def seedRows : Store :=
  [("andrii", "andrii@example.com"),
   ("olena", "olena@example.com"),
   ("max", "max@example.com")]

/-- The startup bootstrap block of app.py: CREATE TABLE IF NOT EXISTS, then
count the rows and, when the count is zero, insert the three seed rows in
one batch and commit. -/
def ensure_schema (d : DbState) : DbState :=
  let d1 : DbState := if d.tableExists then d else ⟨true, []⟩
  if d1.rows.length = 0 then ⟨true, d1.rows ++ seedRows⟩ else d1

/-- Outcome of the SELECT 1 round-trip performed by the health route: either
success, or an exception whose str rendering is the given detail. -/
inductive PingOutcome where
  | ok
  | err (detail : String)
deriving DecidableEq

/-- health_db route from app.py: body and HTTP status code. -/
def health_db : PingOutcome → String × Nat
  | PingOutcome.ok => ("ok", 200)
  | PingOutcome.err d => ("db error: " ++ d, 500)

/-- Python str.strip with no argument, as applied by the index handler to
the submitted form fields: drop whitespace from both ends. -/
def strip (s : String) : String :=
  String.mk (((s.data.dropWhile Char.isWhitespace).reverse.dropWhile
    Char.isWhitespace).reverse)

/-- HTTP method of a request to the index route. -/
inductive Method where
  | GET
  | POST
deriving DecidableEq

/-- The form fields the index handler inspects (None means the field is
absent from the submitted form). -/
structure Form where
  user_keyword : Option String
  username : Option String
  useremail : Option String
deriving DecidableEq

/-- A rendered index page: the name_emails and feedback values passed to
the template collaborator. -/
inductive Rendered where
  | page (name_emails : Option (List Row ⊕ String)) (feedback : Option String)
deriving DecidableEq

/-- The index route handler from app.py, with the table state threaded
explicitly: returns the rendered page and the table after the request. -/
def index (store : Store) (m : Method) (f : Form) : Rendered × Store :=
  match m with
  | Method.GET => (Rendered.page none none, store)
  | Method.POST =>
    match f.user_keyword with
    | some raw =>
        let kw := strip raw
        (Rendered.page
          (some (if kw = "" then Sum.inr "User not found" else find_emails store kw))
          none,
         store)
    | none =>
        match f.username, f.useremail with
        | some u, some em =>
            let r := insert_email store (strip u) (strip em)
            (Rendered.page none (some r.2), r.1)
        | _, _ => (Rendered.page none none, store)

/-- An environment with all four direct-credential variables set. -/
def directEnv : Env :=
  ⟨some "h", none, none, none, none, some "n", none, some "u", none,
   some "pw", none, none, none⟩

/-- An environment with a secret identifier, host and database name set,
but no direct credentials. -/
def secretEnv : Env :=
  ⟨some "h", none, none, none, none, some "n", none, none, none,
   none, none, some "arn", none⟩

/-- Unfolding lemma: a percent wildcard matches when the rest of the
pattern matches some suffix of the string. -/
theorem likeMatch_percent (ps s : List Char) :
    likeMatch ('%' :: ps) s = s.tails.any (fun t => likeMatch ps t) := by
  simp [likeMatch]

/-- Unfolding lemma: a non-percent pattern character never matches the
empty string. -/
theorem likeMatch_char_nil {c : Char} (hc : c ≠ '%') (ps : List Char) :
    likeMatch (c :: ps) [] = false := by
  simp [likeMatch, hc]

/-- Unfolding lemma: a non-percent pattern character consumes one string
character, either as the underscore wildcard or by literal equality. -/
theorem likeMatch_char_cons {c : Char} (hc : c ≠ '%') (ps : List Char)
    (c2 : Char) (s2 : List Char) :
    likeMatch (c :: ps) (c2 :: s2) = ((c = '_' || c = c2) && likeMatch ps s2) := by
  simp [likeMatch, hc]

/-- Every string matches itself read as a LIKE pattern. -/
theorem likeMatch_self : ∀ s : List Char, likeMatch s s = true := by
  intro s
  induction s with
  | nil => rfl
  | cons c s ih =>
    by_cases hc : c = '%'
    · subst hc
      rw [likeMatch_percent, List.any_eq_true]
      refine ⟨s, ?_, ih⟩
      exact (List.mem_tails _ _).mpr ⟨['%'], rfl⟩
    · rw [likeMatch_char_cons hc]
      simp [ih]

/-- Appending a trailing percent wildcard preserves any match. -/
theorem likeMatch_append_percent :
    ∀ p s : List Char, likeMatch p s = true → likeMatch (p ++ ['%']) s = true := by
  intro p
  induction p with
  | nil =>
    intro s h
    have hs : s = [] := by simpa [likeMatch] using h
    subst hs
    rfl
  | cons c ps ih =>
    intro s h
    by_cases hc : c = '%'
    · subst hc
      rw [List.cons_append, likeMatch_percent, List.any_eq_true]
      rw [likeMatch_percent, List.any_eq_true] at h
      obtain ⟨t, ht, hm⟩ := h
      exact ⟨t, ht, ih t hm⟩
    · cases s with
      | nil => rw [likeMatch_char_nil hc] at h; cases h
      | cons c2 s2 =>
        rw [likeMatch_char_cons hc] at h
        rw [show (c :: ps) ++ ['%'] = c :: (ps ++ ['%']) from rfl,
          likeMatch_char_cons hc]
        rw [Bool.and_eq_true] at h ⊢
        exact ⟨h.1, ih s2 h.2⟩

/-- Every username matches the search pattern built from itself. -/
theorem usernameMatches_self (u : String) : usernameMatches u u = true := by
  unfold usernameMatches likePattern
  rw [likeMatch_percent, List.any_eq_true]
  refine ⟨u.toList, ?_, likeMatch_append_percent _ _ (likeMatch_self _)⟩
  exact (List.mem_tails _ _).mpr (List.suffix_refl _)

/-- Claim C1: insert checks its conditions in a fixed order, short-circuiting
on the first failure: empty username or email gives the empty-field message;
otherwise an email lacking the at sign or the dot gives the invalid-email
message; otherwise an already-stored username gives the already-exists
message; otherwise the row is appended and committed and the success message
is returned. -/
theorem insert_email_validation_cascade (store : Store) (name email : String) :
    ((name = "" ∨ email = "") →
      insert_email store name email = (store, "Username or email cannot be empty!")) ∧
    (name ≠ "" → email ≠ "" →
      (email.toList.contains '@' = false ∨ email.toList.contains '.' = false) →
      insert_email store name email = (store, "Please provide a valid email address.")) ∧
    (name ≠ "" → email ≠ "" → email.toList.contains '@' = true → email.toList.contains '.' = true →
      store.any (fun r => r.1 = name) = true →
      insert_email store name email = (store, "User " ++ name ++ " already exists.")) ∧
    (name ≠ "" → email ≠ "" → email.toList.contains '@' = true → email.toList.contains '.' = true →
      store.any (fun r => r.1 = name) = false →
      insert_email store name email =
        (store ++ [(name, email)],
         "User " ++ name ++ " with email " ++ email ++
           " has been added successfully.")) := by
  refine ⟨?_, ?_, ?_, ?_⟩
  · intro h
    unfold insert_email
    rw [if_pos h]
  · intro h1 h2 h3
    unfold insert_email
    rw [if_neg (by simp [h1, h2]), if_pos h3]
  · intro h1 h2 h3 h4 h5
    unfold insert_email
    rw [if_neg (by simp [h1, h2]), if_neg (by simp_all), if_pos h5]
  · intro h1 h2 h3 h4 h5
    unfold insert_email
    rw [if_neg (by simp [h1, h2]), if_neg (by simp_all), if_neg (by simp [h5])]

/-- Witness for C1: each branch of the cascade evaluated at a concrete
input through the theorem. -/
theorem insert_email_validation_cascade_witness :
    insert_email [] "" "a@b.c" = ([], "Username or email cannot be empty!") ∧
    insert_email [] "u" "uatbdotc" = ([], "Please provide a valid email address.") ∧
    insert_email [("u", "a@b.c")] "u" "x@y.z" =
      ([("u", "a@b.c")], "User u already exists.") ∧
    insert_email [] "u" "a@b.c" =
      ([("u", "a@b.c")], "User u with email a@b.c has been added successfully.") := by
  refine ⟨?_, ?_, ?_, ?_⟩
  · exact (insert_email_validation_cascade [] "" "a@b.c").1 (Or.inl rfl)
  · exact (insert_email_validation_cascade [] "u" "uatbdotc").2.1
      (by decide) (by decide) (by decide)
  · exact (insert_email_validation_cascade [("u", "a@b.c")] "u" "x@y.z").2.2.1
      (by decide) (by decide) rfl rfl rfl
  · exact (insert_email_validation_cascade [] "u" "a@b.c").2.2.2
      (by decide) (by decide) rfl rfl rfl

/-- Counterexample to C2 as stated: against the freshly bootstrapped store,
the username ndr is non-empty and not already present, yet inserting it and
searching for it returns two pairs, because the LIKE pattern with percent on
both sides also matches the stored username andrii, of which ndr is a
substring. -/
theorem insert_then_search_counterexample :
    ((ensure_schema ⟨false, []⟩).rows.any (fun r => r.1 = "ndr") = false) ∧
    find_emails (insert_email (ensure_schema ⟨false, []⟩).rows "ndr" "a@b.c").1 "ndr" =
      Sum.inl [("andrii", "andrii@example.com"), ("ndr", "a@b.c")] ∧
    find_emails (insert_email (ensure_schema ⟨false, []⟩).rows "ndr" "a@b.c").1 "ndr" ≠
      Sum.inl [("ndr", "a@b.c")] := by
  refine ⟨rfl, rfl, ?_⟩
  decide

/-- Claim C2 as amended: for every non-empty username u such that no
already-stored username matches the search pattern built from u (in
particular u itself is not present), inserting (u, a@b.c) and then searching
for u returns exactly the one pair (u, a@b.c). -/
theorem insert_then_search_amended (store : Store) (u : String)
    (hu : u ≠ "")
    (hnm : ∀ r ∈ store, usernameMatches u r.1 = false) :
    find_emails (insert_email store u "a@b.c").1 u = Sum.inl [(u, "a@b.c")] := by
  have hex : store.any (fun r => r.1 = u) = false := by
    simp only [List.any_eq_false, decide_eq_true_eq]
    intro r hr hru
    have h1 := hnm r hr
    rw [hru, usernameMatches_self] at h1
    cases h1
  have hins : (insert_email store u "a@b.c").1 = store ++ [(u, "a@b.c")] := by
    unfold insert_email
    rw [if_neg (by simp [hu]), if_neg (by decide), if_neg (by simp [hex])]
  rw [hins]
  have hfil : (store ++ [(u, "a@b.c")]).filter (fun r => usernameMatches u r.1) =
      [(u, "a@b.c")] := by
    rw [List.filter_append]
    have h1 : store.filter (fun r => usernameMatches u r.1) = [] := by
      rw [List.filter_eq_nil_iff]
      intro r hr
      simp [hnm r hr]
    rw [h1]
    simp [usernameMatches_self]
  simp [find_emails, hfil]

/-- Witness for the amended C2: a store whose only username does not match
the pattern, evaluated through the theorem. -/
theorem insert_then_search_amended_witness :
    find_emails (insert_email [("andrii", "andrii@example.com")] "zq" "a@b.c").1 "zq" =
      Sum.inl [("zq", "a@b.c")] := by
  refine insert_then_search_amended [("andrii", "andrii@example.com")] "zq"
    (by decide) ?_
  intro r hr
  rw [List.mem_singleton] at hr
  subst hr
  decide

/-- Claim C3: every validation failure of insert returns the corresponding
status message and leaves the table unchanged; in particular inserting
andrii against the freshly bootstrapped seeded store returns the
already-exists message. -/
theorem insert_failure_leaves_store :
    (∀ (store : Store) (name email : String), (name = "" ∨ email = "") →
      insert_email store name email = (store, "Username or email cannot be empty!")) ∧
    (∀ (store : Store) (name email : String), name ≠ "" → email ≠ "" →
      (email.toList.contains '@' = false ∨ email.toList.contains '.' = false) →
      insert_email store name email = (store, "Please provide a valid email address.")) ∧
    (∀ (store : Store) (name email : String), name ≠ "" → email ≠ "" →
      email.toList.contains '@' = true → email.toList.contains '.' = true →
      store.any (fun r => r.1 = name) = true →
      insert_email store name email = (store, "User " ++ name ++ " already exists.")) ∧
    insert_email (ensure_schema ⟨false, []⟩).rows "andrii" "x@y.z" =
      ((ensure_schema ⟨false, []⟩).rows, "User andrii already exists.") := by
  refine ⟨?_, ?_, ?_, rfl⟩
  · intro store name email h
    unfold insert_email
    rw [if_pos h]
  · intro store name email h1 h2 h3
    unfold insert_email
    rw [if_neg (by simp [h1, h2]), if_pos h3]
  · intro store name email h1 h2 h3 h4 h5
    unfold insert_email
    rw [if_neg (by simp [h1, h2]), if_neg (by simp_all), if_pos h5]

/-- Witness for C3: each failing branch evaluated at a concrete input on
the seeded store through the theorem. -/
theorem insert_failure_leaves_store_witness :
    insert_email seedRows "" "a@b.c" = (seedRows, "Username or email cannot be empty!") ∧
    insert_email seedRows "u" "bad" = (seedRows, "Please provide a valid email address.") ∧
    insert_email seedRows "max" "x@y.z" = (seedRows, "User max already exists.") := by
  refine ⟨?_, ?_, ?_⟩
  · exact insert_failure_leaves_store.1 seedRows "" "a@b.c" (Or.inl rfl)
  · exact insert_failure_leaves_store.2.1 seedRows "u" "bad"
      (by decide) (by decide) (by decide)
  · exact insert_failure_leaves_store.2.2.1 seedRows "max" "x@y.z"
      (by decide) (by decide) rfl rfl rfl

/-- Claim C4: a POST whose keyword strips to the empty string renders the
not-found sentinel for every store, with no query executed (the handler
short-circuits before find_emails, so the result does not depend on the
store, which is returned unchanged); and find_emails returns the sentinel
whenever the query yields zero rows. -/
theorem search_empty_and_zero_rows :
    (∀ (store : Store) (f : Form) (raw : String),
      f.user_keyword = some raw → strip raw = "" →
      index store Method.POST f =
        (Rendered.page (some (Sum.inr "User not found")) none, store)) ∧
    (∀ (store : Store) (keyword : String),
      store.filter (fun r => usernameMatches keyword r.1) = [] →
      find_emails store keyword = Sum.inr "User not found") := by
  constructor
  · intro store f raw hf ht
    obtain ⟨fk, fu, fe⟩ := f
    dsimp only at hf
    subst hf
    simp [index, ht]
  · intro store keyword h
    simp [find_emails, h]

/-- Witness for C4: a whitespace keyword on the seeded store (with insert
fields also present), and a keyword matching no seeded row, evaluated
through the theorem. -/
theorem search_empty_and_zero_rows_witness :
    index seedRows Method.POST ⟨some " ", some "v", some "v@v.v"⟩ =
      (Rendered.page (some (Sum.inr "User not found")) none, seedRows) ∧
    find_emails seedRows "zzz" = Sum.inr "User not found" := by
  refine ⟨?_, ?_⟩
  · exact search_empty_and_zero_rows.1 seedRows ⟨some " ", some "v", some "v@v.v"⟩
      " " rfl (by decide)
  · exact search_empty_and_zero_rows.2 seedRows "zzz" (by decide)

/-- Claim C5: running the startup schema bootstrap twice in sequence on an
initially empty store leaves exactly the three seed rows, not six. -/
theorem bootstrap_idempotent_seed :
    (ensure_schema (ensure_schema ⟨false, []⟩)).rows = seedRows ∧
    (ensure_schema (ensure_schema ⟨false, []⟩)).rows.length = 3 :=
  ⟨rfl, rfl⟩

/-- Claim C6: resolve_connection follows the stated priority order.  With
all four direct-credential values truthy the result is the remote
descriptor built from them verbatim, for every secret-fetch outcome alike
(no secret lookup); the port defaults to 3306 when both port variables are
unset; with a secret identifier plus host and name but not full direct
credentials, the resolver is consulted and a remote descriptor is produced
exactly when both returned credentials are truthy, else the local store;
in every other case, including the empty environment, the local store. -/
theorem build_uri_priority :
    (∀ (e : Env) (s1 s2 : SecretFetch) (port : Nat),
      DB_PORT? e = some port →
      truthy (DB_HOST e) = true → truthy (DB_NAME e) = true →
      truthy (DB_USER e) = true → truthy (DB_PASSWORD e) = true →
      build_sqlalchemy_uri e s1 =
        Except.ok (mysqlUri ((DB_USER e).getD "") ((DB_PASSWORD e).getD "")
          ((DB_HOST e).getD "") port ((DB_NAME e).getD "")) ∧
      build_sqlalchemy_uri e s1 = build_sqlalchemy_uri e s2) ∧
    (∀ e : Env, pyOr e.db_port e.rds_port = none → DB_PORT? e = some 3306) ∧
    (∀ (e : Env) (s : SecretFetch) (port : Nat) (u p : Option PyJson),
      DB_PORT? e = some port →
      (truthy (DB_HOST e) && truthy (DB_NAME e) &&
        truthy (DB_USER e) && truthy (DB_PASSWORD e)) = false →
      truthy (SECRET_ARN e) = true → truthy (DB_HOST e) = true →
      truthy (DB_NAME e) = true →
      fetch_rds_credentials ((SECRET_ARN e).getD "") (AWS_REGION e) s =
        Except.ok (u, p) →
      build_sqlalchemy_uri e s =
        (if pyTruthy u && pyTruthy p then
          Except.ok (mysqlUri (pyStr (u.getD PyJson.jnull)) (pyStr (p.getD PyJson.jnull))
            ((DB_HOST e).getD "") port ((DB_NAME e).getD ""))
        else Except.ok "sqlite:///./email.db")) ∧
    (∀ (e : Env) (s : SecretFetch) (port : Nat),
      DB_PORT? e = some port →
      (truthy (DB_HOST e) && truthy (DB_NAME e) &&
        truthy (DB_USER e) && truthy (DB_PASSWORD e)) = false →
      (truthy (SECRET_ARN e) && truthy (DB_HOST e) && truthy (DB_NAME e)) = false →
      build_sqlalchemy_uri e s = Except.ok "sqlite:///./email.db") ∧
    (∀ s : SecretFetch, build_sqlalchemy_uri emptyEnv s = Except.ok "sqlite:///./email.db") := by
  refine ⟨?_, ?_, ?_, ?_, ?_⟩
  · intro e s1 s2 port hport h1 h2 h3 h4
    constructor <;> simp [build_sqlalchemy_uri, hport, h1, h2, h3, h4]
  · intro e h
    unfold DB_PORT?
    rw [h]
  · intro e s port u p hport hno harn hhost hname hfetch
    have hc2 : (truthy (SECRET_ARN e) && truthy (DB_HOST e) && truthy (DB_NAME e)) = true := by
      rw [harn, hhost, hname]
      rfl
    unfold build_sqlalchemy_uri
    rw [hport]
    dsimp only
    rw [if_neg (by simp [hno]), if_pos hc2, hfetch]
  · intro e s port hport hno hno2
    unfold build_sqlalchemy_uri
    rw [hport]
    dsimp only
    rw [if_neg (by simp [hno]), if_neg (by simp [hno2])]
  · intro s
    rfl

/-- Witness for C6: the direct environment with two different secret
oracles, the port default, the secret environment with a structured
payload, and the empty environment, evaluated through the theorem. -/
theorem build_uri_priority_witness :
    build_sqlalchemy_uri directEnv SecretFetch.clientError =
      Except.ok "mysql+pymysql://u:pw@h:3306/n" ∧
    build_sqlalchemy_uri directEnv SecretFetch.clientError =
      build_sqlalchemy_uri directEnv (SecretFetch.payload "pw" JsonParse.decodeError) ∧
    DB_PORT? directEnv = some 3306 ∧
    build_sqlalchemy_uri secretEnv
        (SecretFetch.payload "x" (JsonParse.value (PyJson.jobj
          [("username", PyJson.jstr "bob"), ("password", PyJson.jstr "pw")]))) =
      Except.ok "mysql+pymysql://bob:pw@h:3306/n" ∧
    build_sqlalchemy_uri emptyEnv SecretFetch.clientError =
      Except.ok "sqlite:///./email.db" := by
  refine ⟨?_, ?_, ?_, ?_, ?_⟩
  · exact ((build_uri_priority.1 directEnv SecretFetch.clientError
      (SecretFetch.payload "pw" JsonParse.decodeError) 3306 rfl rfl rfl rfl rfl).1).trans rfl
  · exact (build_uri_priority.1 directEnv SecretFetch.clientError
      (SecretFetch.payload "pw" JsonParse.decodeError) 3306 rfl rfl rfl rfl rfl).2
  · exact build_uri_priority.2.1 directEnv rfl
  · exact (build_uri_priority.2.2.1 secretEnv
      (SecretFetch.payload "x" (JsonParse.value (PyJson.jobj
        [("username", PyJson.jstr "bob"), ("password", PyJson.jstr "pw")])))
      3306 (some (PyJson.jstr "bob")) (some (PyJson.jstr "pw"))
      rfl (by decide) rfl rfl rfl rfl).trans rfl
  · exact build_uri_priority.2.2.2.2 SecretFetch.clientError

/-- Claim C7: the code contradicts the never-raise requirement.  With a
secret identifier, host and database name configured and a secret payload
that decodes to JSON but not to an object (here the payload 123), the
resolver calls get on a non-dict value: the AttributeError is not caught
and propagates out of both the resolver and the connection builder instead
of degrading to the local store. -/
theorem build_uri_raises_on_nonobject_json :
    fetch_rds_credentials "arn" "eu-central-1"
        (SecretFetch.payload "123" (JsonParse.value (PyJson.jnum 123))) =
      Except.error "AttributeError" ∧
    build_sqlalchemy_uri secretEnv
        (SecretFetch.payload "123" (JsonParse.value (PyJson.jnum 123))) =
      Except.error "AttributeError" :=
  ⟨rfl, rfl⟩

/-- Claim C8: the credential resolver extracts username slash user with the
admin fallback and password slash pass from a structured payload; treats a
payload that fails to decode as the password with username admin; and
resolves a failed fetch to none, none. -/
theorem fetch_rds_credentials_formats :
    fetch_rds_credentials "arn" "eu-central-1"
        (SecretFetch.payload "\x7b\"username\": \"bob\", \"password\": \"pw\"\x7d"
          (JsonParse.value (PyJson.jobj
            [("username", PyJson.jstr "bob"), ("password", PyJson.jstr "pw")]))) =
      Except.ok (some (PyJson.jstr "bob"), some (PyJson.jstr "pw")) ∧
    fetch_rds_credentials "arn" "eu-central-1"
        (SecretFetch.payload "pw" JsonParse.decodeError) =
      Except.ok (some (PyJson.jstr "admin"), some (PyJson.jstr "pw")) ∧
    fetch_rds_credentials "arn" "eu-central-1" SecretFetch.clientError =
      Except.ok (none, none) ∧
    fetch_rds_credentials "arn" "eu-central-1"
        (SecretFetch.payload "\x7b\"password\": \"pw\"\x7d"
          (JsonParse.value (PyJson.jobj [("password", PyJson.jstr "pw")]))) =
      Except.ok (some (PyJson.jstr "admin"), some (PyJson.jstr "pw")) ∧
    fetch_rds_credentials "arn" "eu-central-1"
        (SecretFetch.payload "\x7b\"user\": \"u1\", \"pass\": \"p1\"\x7d"
          (JsonParse.value (PyJson.jobj
            [("user", PyJson.jstr "u1"), ("pass", PyJson.jstr "p1")]))) =
      Except.ok (some (PyJson.jstr "u1"), some (PyJson.jstr "p1")) :=
  ⟨rfl, rfl, rfl, rfl, rfl⟩

/-- Counterexample to C9 as stated: the failure body is not a generic
detail.  The handler embeds the exception text verbatim after the prefix,
so two different driver errors produce two different bodies, and a driver
message is passed through to the user unchanged. -/
theorem health_db_detail_not_generic :
    health_db (PingOutcome.err "Access denied for user admin (using password: YES)") =
      ("db error: Access denied for user admin (using password: YES)", 500) ∧
    (health_db (PingOutcome.err "boom-A")).1 ≠ (health_db (PingOutcome.err "boom-B")).1 :=
  ⟨rfl, by decide⟩

/-- Claim C9 as amended: the route returns 200 ok on success and on failure
500 with body db error: followed by the exception text verbatim.  The body
is a plain message with no stack trace, but the detail is the raw exception
text, not a generic one, so driver error text reaches the user. -/
theorem health_db_responses :
    health_db PingOutcome.ok = ("ok", 200) ∧
    ∀ d : String, health_db (PingOutcome.err d) = ("db error: " ++ d, 500) :=
  ⟨rfl, fun _ => rfl⟩

/-- Claim C10: a POST whose form contains the keyword field takes only the
search branch and returns its rendering immediately: the store is returned
unchanged and the feedback is empty, whatever the username and useremail
fields hold. -/
theorem post_with_keyword_takes_search_branch
    (store : Store) (f : Form) (raw : String)
    (hf : f.user_keyword = some raw) :
    index store Method.POST f =
      (Rendered.page
        (some (if strip raw = "" then Sum.inr "User not found"
               else find_emails store (strip raw))) none,
       store) := by
  obtain ⟨fk, fu, fe⟩ := f
  dsimp only at hf
  subst hf
  rfl

/-- Witness for C10: a form carrying the keyword field together with a
valid, not-yet-stored username and email pair; the search rendering is
returned and the row is not inserted. -/
theorem post_with_keyword_takes_search_branch_witness :
    index [("u", "u@u.u")] Method.POST ⟨some "u", some "v", some "v@v.v"⟩ =
      (Rendered.page (some (Sum.inl [("u", "u@u.u")])) none, [("u", "u@u.u")]) := by
  rw [post_with_keyword_takes_search_branch [("u", "u@u.u")]
    ⟨some "u", some "v", some "v@v.v"⟩ "u" rfl]
  rfl

end EmailDb
